import Mathlib

/-!
Shallow embedding of the jiseti-backend record/vote/status core
(src/routes.py, src/models.py, src/utils/validators.py).

Conventions of the embedding:
* SQLAlchemy tables become lists of rows; the surrogate primary key of a
  `Record` is an explicit `id` field, fresh ids are modelled as
  `max id + 1` (autoincrement).
* JSON request bodies become structures of `Option` fields; an absent key
  is `none`.  Where the source distinguishes `'k' in data` (key present)
  from the value being `null`, the field is `Option (Option _)`.
* Python truthiness on strings ("" and None are falsy) is `optTruthy`.
* `datetime.utcnow()` is an explicit `now : Nat` parameter.
* Each Flask handler becomes a function `... → DB → Except ErrResp DB`
  (creation handlers also return the created row).  An `ErrResp` carries
  the HTTP status code and the error message of the source.
* `Record.query.get_or_404` raises `werkzeug.exceptions.NotFound`, which
  is a subclass of `Exception`; in every handler the call sits inside the
  `try:` block whose `except Exception` clause rolls back and returns a
  generic 500 response, so a missing record surfaces as that handler's
  500 error, not as a 404.  The embedding reproduces this.
-/

namespace Jiseti

/-- JSON-ish values appearing in serialized dictionaries
(`to_dict` / `to_public_dict` in src/models.py). -/
inductive Val where
  | str (s : String)
  | rat (q : ℚ)
  | nat (n : Nat)
  | bool (b : Bool)
  | null
  | list (l : List Val)
  | dict (d : List (String × Val))

/-- A Python dict with string keys, as produced by the model serializers. -/
abbrev Dict := List (String × Val)

/-- `d[k]` lookup (first binding wins, as in a Python dict which has unique keys). -/
def dictGet (k : String) : Dict → Option Val
  | [] => none
  | (k', v) :: rest => if k' == k then some v else dictGet k rest

/-- `d.pop(k, None)`: remove the binding for `k`. -/
def dictPop (k : String) (d : Dict) : Dict :=
  d.filter (fun p => !(p.1 == k))

/-- `d[k] = v`: overwrite the binding for `k`, or append it. -/
def dictSet (k : String) (v : Val) (d : Dict) : Dict :=
  if d.any (fun p => p.1 == k) then
    d.map (fun p => if p.1 == k then (k, v) else p)
  else d ++ [(k, v)]

/-- Python truthiness of an optional string: `None` and `""` are falsy. -/
def optTruthy : Option String → Bool
  | none => false
  | some s => !(s == "")

/-- Python `a or b` on optional strings: `a` if truthy, else `b`. -/
def pyOrStr (a b : Option String) : Option String :=
  if optTruthy a then a else b

/-! ## src/utils/validators.py -/

/-- `validate_coordinates` (src/utils/validators.py:47-65): `True` when either
coordinate is absent, otherwise both must be in range. -/
def validate_coordinates (latitude longitude : Option ℚ) : Bool :=
  match latitude, longitude with
  | none, _ => true
  | _, none => true
  | some lat, some lng =>
    if !(decide (-90 ≤ lat) && decide (lat ≤ 90)) then false
    else if !(decide (-180 ≤ lng) && decide (lng ≤ 180)) then false
    else true

def image_extensions : List String :=
  [".jpg", ".jpeg", ".png", ".gif", ".webp", ".bmp"]

def video_extensions : List String :=
  [".mp4", ".avi", ".mov", ".wmv", ".flv", ".webm", ".mkv"]

/-- Split a character list at the first `':'` (the scheme separator used by
`urlparse`); `none` when there is no colon. -/
def splitFirstColon : List Char → Option (List Char × List Char)
  | [] => none
  | c :: cs =>
    if c == ':' then some ([], cs)
    else
      match splitFirstColon cs with
      | none => none
      | some (pre, post) => some (c :: pre, post)

/-- `urlparse` accepts a scheme of a letter followed by letters, digits,
`'+'`, `'-'` or `'.'`. -/
def validSchemeChars : List Char → Bool
  | [] => false
  | c :: cs => c.isAlpha && cs.all (fun d => d.isAlphanum || d == '+' || d == '-' || d == '.')

def lowerChars (l : List Char) : List Char := l.map Char.toLower

/-- Scheme-splitting fragment of `urllib.parse.urlparse`: returns the
(lower-cased) scheme and the remainder, or an empty scheme when the text
before the first colon is not a valid scheme. -/
def urlScheme (url : List Char) : List Char × List Char :=
  match splitFirstColon url with
  | some (pre, post) => if validSchemeChars pre then (lowerChars pre, post) else ([], url)
  | none => ([], url)

/-- Netloc fragment of `urlparse`: present only after `"//"`, running to the
next `'/'`, `'?'` or `'#'`. -/
def urlNetloc (rest : List Char) : List Char :=
  match rest with
  | '/' :: '/' :: tail => tail.takeWhile (fun c => !(c == '/') && !(c == '?') && !(c == '#'))
  | _ => []

/-- `validate_media_url` (src/utils/validators.py:14-45): empty URLs pass;
otherwise scheme and netloc must be present, the scheme must be http(s), and
for a given media type the lower-cased URL must end with a known extension. -/
def validate_media_url (url : String) (media_type : Option String) : Bool :=
  if url == "" then true
  else
    let chars := url.data
    let (scheme, rest) := urlScheme chars
    let netloc := urlNetloc rest
    if scheme.isEmpty || netloc.isEmpty then false
    else if !(scheme == "http".data) && !(scheme == "https".data) then false
    else
      match media_type with
      | none => true
      | some mt =>
        let lower := lowerChars chars
        if mt == "image" then image_extensions.any (fun e => e.data.isSuffixOf lower)
        else if mt == "video" then video_extensions.any (fun e => e.data.isSuffixOf lower)
        else true

/-! ## src/models.py : rows -/

/-- A row of the `records` table (src/models.py:61-86). -/
structure Record where
  id : Nat
  type : String
  title : String
  description : String
  status : String
  latitude : Option ℚ
  longitude : Option ℚ
  location_name : Option String
  created_at : Nat
  updated_at : Nat
  resolution_notes : Option String
  is_anonymous : Bool
  vote_count : Nat
  urgency_level : String
  normal_user_id : Option Nat
  assigned_admin_id : Option Nat
deriving DecidableEq

/-- A row of the `votes` table (src/models.py:159-169); `(record_id, user_id)`
carries a unique constraint. -/
structure Vote where
  record_id : Nat
  user_id : Nat
  vote_type : String
  created_at : Nat
deriving DecidableEq

/-- A row of the `media` table (src/models.py:131-144); the surrogate id and
upload timestamp are not consulted by any route and are omitted. -/
structure Media where
  record_id : Nat
  media_type : String
  media_url : Option String
  filename : Option String
  file_size : Option Nat
  image_url : Option String
  video_url : Option String
deriving DecidableEq

/-- A row of the `status_history` table (src/models.py:180-192). -/
structure StatusHistory where
  record_id : Nat
  old_status : Option String
  new_status : String
  changed_by : Option Nat
  change_reason : Option String
  changed_at : Nat
deriving DecidableEq

/-- The fragment of a `normal_users` row the record routes consult. -/
structure NormalUser where
  id : Nat
  name : String
deriving DecidableEq

/-- The persistent state: the five tables the record/vote/status core owns. -/
structure DB where
  users : List NormalUser
  records : List Record
  media : List Media
  votes : List Vote
  history : List StatusHistory
deriving DecidableEq

/-- The JWT identity: `{'id': ..., 'role': 'user' | 'admin'}`. -/
structure Identity where
  id : Nat
  role : String
deriving DecidableEq

/-- An error response: HTTP status code plus message. -/
structure ErrResp where
  code : Nat
  msg : String
deriving DecidableEq

/-- `Record.query.get(id)` / first record with the given primary key. -/
def findRecord (db : DB) (rid : Nat) : Option Record :=
  db.records.find? (fun r => r.id == rid)

def findUser (db : DB) (uid : Nat) : Option NormalUser :=
  db.users.find? (fun u => u.id == uid)

/-- Persist a mutated record row (same primary key). -/
def setRecord (db : DB) (r : Record) : DB :=
  { db with records := db.records.map (fun x => if x.id == r.id then r else x) }

/-- `Vote.query.filter_by(record_id=record_id).count()`. -/
def countVotes (db : DB) (rid : Nat) : Nat :=
  (db.votes.filter (fun v => v.record_id == rid)).length

/-- `update_vote_count` (src/routes.py:52-62): recount the votes of a record
and cache the count on the record row, returning the count. -/
def update_vote_count (rid : Nat) (db : DB) : Nat × DB :=
  let cnt := countVotes db rid
  match findRecord db rid with
  | some r => (cnt, setRecord db { r with vote_count := cnt })
  | none => (cnt, db)

/-- Autoincrement for the `records` table. -/
def nextRecordId (db : DB) : Nat :=
  db.records.foldl (fun m r => max m r.id) 0 + 1

/-- Apply an operation result, keeping the previous state on error
(`db.session.rollback()` discards every pending write). -/
def runDB (db : DB) (r : Except ErrResp DB) : DB :=
  match r with
  | .ok d => d
  | .error _ => db

/-- Apply a creation result, keeping the previous state on error. -/
def runCreate (db : DB) (r : Except ErrResp (Record × DB)) : DB :=
  match r with
  | .ok p => p.2
  | .error _ => db

/-! ## src/routes.py : voting system -/

/-- Body of `POST /records/<id>/vote`. -/
structure VoteBody where
  vote_type : Option String
deriving DecidableEq

/-- Mutate the (unique) existing `(record_id, user_id)` vote row in place. -/
def updateFirstVote : List Vote → Nat → Nat → String → List Vote
  | [], _, _, _ => []
  | v :: vs, rid, uid, vt =>
    if v.record_id == rid && v.user_id == uid then { v with vote_type := vt } :: vs
    else v :: updateFirstVote vs rid uid vt

/-- Delete the (unique) existing `(record_id, user_id)` vote row. -/
def eraseFirstVote : List Vote → Nat → Nat → List Vote
  | [], _, _ => []
  | v :: vs, rid, uid =>
    if v.record_id == rid && v.user_id == uid then vs
    else v :: eraseFirstVote vs rid uid

/-- `vote_record` (src/routes.py:603-654): users only; vote type defaults to
`"support"` and must be `"support"` or `"urgent"`; upsert the caller's vote
row, then recount the record's cached `vote_count`.  A missing record makes
`get_or_404` raise inside the `try:`, surfacing as the generic 500. -/
def vote_record (identity : Identity) (record_id : Nat) (body : VoteBody) (now : Nat)
    (db : DB) : Except ErrResp DB :=
  if !(identity.role == "user") then .error ⟨403, "Only users can vote"⟩
  else
    let vt := body.vote_type.getD "support"
    if !(vt == "support") && !(vt == "urgent") then
      .error ⟨400, "Vote type must be \"support\" or \"urgent\""⟩
    else
      match findRecord db record_id with
      | none => .error ⟨500, "Failed to vote on record"⟩
      | some _ =>
        let existing := db.votes.find? (fun v => v.record_id == record_id && v.user_id == identity.id)
        let db1 : DB :=
          match existing with
          | some _ => { db with votes := updateFirstVote db.votes record_id identity.id vt }
          | none => { db with votes := db.votes ++ [⟨record_id, identity.id, vt, now⟩] }
        let res := update_vote_count record_id db1
        .ok res.2

/-- `remove_vote` (src/routes.py:656-688): users only; 404 when the caller has
no vote on the record, otherwise delete it and recount. -/
def remove_vote (identity : Identity) (record_id : Nat) (db : DB) : Except ErrResp DB :=
  if !(identity.role == "user") then .error ⟨403, "Only users can remove votes"⟩
  else
    match db.votes.find? (fun v => v.record_id == record_id && v.user_id == identity.id) with
    | none => .error ⟨404, "No vote found to remove"⟩
    | some _ =>
      let db1 := { db with votes := eraseFirstVote db.votes record_id identity.id }
      let res := update_vote_count record_id db1
      .ok res.2

/-! ## src/routes.py : admin status transition -/

/-- Body of `PATCH /records/<id>/status`. -/
structure StatusBody where
  status : Option String
  reason : Option String
  resolution_notes : Option String
deriving DecidableEq

/-- The record mutation performed by `update_status` (src/routes.py:778-788):
overwrite the status, refresh `updated_at`, store truthy resolution notes,
and claim `assigned_admin_id` when it is currently falsy (`None`, or `0`,
which the `administrators` autoincrement never produces). -/
def statusUpdatedRecord (identity : Identity) (body : StatusBody) (now : Nat)
    (record : Record) (new_status : String) : Record :=
  { record with
    status := new_status
    updated_at := now
    resolution_notes :=
      match body.resolution_notes with
      | some s => if s == "" then record.resolution_notes else some s
      | none => record.resolution_notes
    assigned_admin_id :=
      match record.assigned_admin_id with
      | none => some identity.id
      | some a => if a == 0 then some identity.id else some a }

/-- `update_status` (src/routes.py:761-830): admins only; the requested status
must be one of `under-investigation`, `rejected`, `resolved`; there is NO
check of the record's current status — the new status is written whatever the
old one was.  A history row old→new is always appended.  The notification
side effects do not touch the tables. -/
def update_status (identity : Identity) (id : Nat) (body : StatusBody) (now : Nat)
    (db : DB) : Except ErrResp DB :=
  if !(identity.role == "admin") then .error ⟨403, "Only admins can update status"⟩
  else
    match findRecord db id with
    | none => .error ⟨500, "Status update failed"⟩
    | some record =>
      match body.status with
      | none => .error ⟨400, "Invalid status"⟩
      | some new_status =>
        if !(new_status == "under-investigation" || new_status == "rejected" || new_status == "resolved") then
          .error ⟨400, "Invalid status"⟩
        else
          let db1 := setRecord db (statusUpdatedRecord identity body now record new_status)
          .ok { db1 with history := db1.history ++
            [⟨record.id, some record.status, new_status, some identity.id,
              some (body.reason.getD ""), now⟩] }

/-! ## src/routes.py : user record management -/

/-- Body of `PATCH /records/<id>`: the outer `Option` is key presence
(`'k' in data`), the inner one the value (which may be JSON `null`). -/
structure RecordPatch where
  title : Option String
  description : Option String
  type : Option String
  latitude : Option (Option ℚ)
  longitude : Option (Option ℚ)
  location_name : Option (Option String)
  urgency_level : Option String
  image_url : Option (Option String)
  video_url : Option (Option String)
deriving DecidableEq

/-- `data.get(k)`: collapse key absence and `null` to `none`. -/
def patchVal (p : Option (Option String)) : Option String :=
  p.getD none

/-- In-place update of the record's first media row
(src/routes.py:544-551): patch `image_url` / `video_url` when their keys are
present and recompute `media_url`; `media_type` is not touched. -/
def updateFirstMediaRow : List Media → Nat → RecordPatch → List Media
  | [], _, _ => []
  | m :: ms, rid, data =>
    if m.record_id == rid then
      { m with
        image_url := match data.image_url with | some v => v | none => m.image_url
        video_url := match data.video_url with | some v => v | none => m.video_url
        media_url := pyOrStr (patchVal data.image_url) (patchVal data.video_url) } :: ms
    else m :: updateFirstMediaRow ms rid data

/-- Media sub-step of `update_record` (src/routes.py:543-560): when an
`image_url` or `video_url` key is present, update the record's media row or
create one. -/
def updateMedia (db : DB) (rid : Nat) (data : RecordPatch) : DB :=
  if data.image_url.isSome || data.video_url.isSome then
    match db.media.find? (fun m => m.record_id == rid) with
    | some _ => { db with media := updateFirstMediaRow db.media rid data }
    | none =>
      { db with media := db.media ++
        [⟨rid,
          (if optTruthy (patchVal data.image_url) then "image" else "video"),
          pyOrStr (patchVal data.image_url) (patchVal data.video_url),
          none, none, patchVal data.image_url, patchVal data.video_url⟩] }
  else db

/-- The field application step of `update_record` (src/routes.py:525-541):
every field whose key is present in the patch is assigned, and `updated_at`
is refreshed. -/
def patchedRecord (data : RecordPatch) (now : Nat) (record : Record) : Record :=
  { record with
    title := data.title.getD record.title
    description := data.description.getD record.description
    type := data.type.getD record.type
    latitude := match data.latitude with | some v => v | none => record.latitude
    longitude := match data.longitude with | some v => v | none => record.longitude
    location_name := match data.location_name with | some v => v | none => record.location_name
    urgency_level := data.urgency_level.getD record.urgency_level
    updated_at := now }

/-- `update_record` (src/routes.py:490-572): a missing record surfaces as the
generic 500 (see the header comment); then owner-only (403), draft-only (400),
re-validation of touched coordinates/media URLs (400), then the partial update
of the present fields and of the media row. -/
def update_record (identity : Identity) (id : Nat) (data : RecordPatch) (now : Nat)
    (db : DB) : Except ErrResp DB :=
  match findRecord db id with
  | none => .error ⟨500, "Failed to update record"⟩
  | some record =>
    if !(identity.role == "user") || !(record.normal_user_id == some identity.id) then
      .error ⟨403, "Unauthorized"⟩
    else if !(record.status == "draft") then
      .error ⟨400, "Only draft records can be edited"⟩
    else
      let latv := match data.latitude with | some v => v | none => record.latitude
      let lngv := match data.longitude with | some v => v | none => record.longitude
      if (data.latitude.isSome || data.longitude.isSome) &&
          (latv.isSome || lngv.isSome) && !(validate_coordinates latv lngv) then
        .error ⟨400, "Invalid coordinates"⟩
      else
        let img := patchVal data.image_url
        let vid := patchVal data.video_url
        if optTruthy img && !(validate_media_url (img.getD "") (some "image")) then
          .error ⟨400, "Invalid image URL"⟩
        else if optTruthy vid && !(validate_media_url (vid.getD "") (some "video")) then
          .error ⟨400, "Invalid video URL"⟩
        else
          .ok (updateMedia (setRecord db (patchedRecord data now record)) record.id data)

/-- `delete_record` (src/routes.py:574-599): same missing/owner/draft guards
as `update_record`; deletion cascades to the record's media, votes and
history rows (`cascade="all, delete-orphan"` in src/models.py:84-86). -/
def delete_record (identity : Identity) (id : Nat) (db : DB) : Except ErrResp DB :=
  match findRecord db id with
  | none => .error ⟨500, "Failed to delete record"⟩
  | some record =>
    if !(identity.role == "user") || !(record.normal_user_id == some identity.id) then
      .error ⟨403, "Unauthorized"⟩
    else if !(record.status == "draft") then
      .error ⟨400, "Only draft records can be deleted"⟩
    else
      .ok { db with
        records := db.records.filter (fun r => !(r.id == id))
        media := db.media.filter (fun m => !(m.record_id == id))
        votes := db.votes.filter (fun v => !(v.record_id == id))
        history := db.history.filter (fun h => !(h.record_id == id)) }

/-! ## src/routes.py : record creation -/

/-- Body of `POST /public/report` and `POST /records`; for creation every
lookup goes through `data.get(...)`, so key absence and `null` coincide. -/
structure CreateBody where
  title : Option String
  description : Option String
  type : Option String
  latitude : Option ℚ
  longitude : Option ℚ
  location_name : Option String
  urgency_level : Option String
  image_url : Option String
  video_url : Option String
deriving DecidableEq

def valid_types : List String :=
  ["red-flag", "intervention", "incident", "complaint", "suggestion", "emergency"]

/-- Media row built by both creation paths when `image_url or video_url`
is truthy. -/
def newMedia (rid : Nat) (image_url video_url : Option String) : Media :=
  ⟨rid, (if optTruthy image_url then "image" else "video"),
    pyOrStr image_url video_url, none, none, image_url, video_url⟩

/-- `anonymous_report` (src/routes.py:294-352): truthy title and description
required, type must be in the allowed set; the record is created with
`status='under-investigation'`, `is_anonymous=True`, `normal_user_id=None`.
Coordinates and media URLs are stored without any validation. -/
def anonymous_report (data : CreateBody) (now : Nat) (db : DB) :
    Except ErrResp (Record × DB) :=
  if !(optTruthy data.title) || !(optTruthy data.description) then
    .error ⟨400, "Title and description are required"⟩
  else if !(valid_types.any (fun t => some t == data.type)) then
    .error ⟨400, "Invalid type"⟩
  else
    let rid := nextRecordId db
    let r : Record :=
      { id := rid
        type := data.type.getD ""
        title := data.title.getD ""
        description := data.description.getD ""
        status := "under-investigation"
        latitude := data.latitude
        longitude := data.longitude
        location_name := data.location_name
        created_at := now
        updated_at := now
        resolution_notes := none
        is_anonymous := true
        vote_count := 0
        urgency_level := data.urgency_level.getD "medium"
        normal_user_id := none
        assigned_admin_id := none }
    let db1 := { db with records := db.records ++ [r] }
    let db2 :=
      if optTruthy data.image_url || optTruthy data.video_url then
        { db1 with media := db1.media ++ [newMedia rid data.image_url data.video_url] }
      else db1
    .ok (r, db2)

/-- `create_record` (src/routes.py:356-429): users only; truthy title
required; a type outside the allowed set is silently coerced to
`'red-flag'`; provided coordinates and truthy media URLs are validated and
reject with 400; the record is created as an owned draft. -/
def create_record (identity : Identity) (data : CreateBody) (now : Nat) (db : DB) :
    Except ErrResp (Record × DB) :=
  if !(identity.role == "user") then .error ⟨403, "Only users can create records"⟩
  else if !(optTruthy data.title) then .error ⟨400, "Title is required"⟩
  else
    let ty :=
      match data.type with
      | some t => if valid_types.any (fun v => v == t) then t else "red-flag"
      | none => "red-flag"
    if (data.latitude.isSome || data.longitude.isSome) &&
        !(validate_coordinates data.latitude data.longitude) then
      .error ⟨400, "Invalid coordinates provided"⟩
    else if optTruthy data.image_url &&
        !(validate_media_url (data.image_url.getD "") (some "image")) then
      .error ⟨400, "Invalid image URL format"⟩
    else if optTruthy data.video_url &&
        !(validate_media_url (data.video_url.getD "") (some "video")) then
      .error ⟨400, "Invalid video URL format"⟩
    else
      let rid := nextRecordId db
      let r : Record :=
        { id := rid
          type := ty
          title := data.title.getD ""
          description := data.description.getD ""
          status := "draft"
          latitude := data.latitude
          longitude := data.longitude
          location_name := data.location_name
          created_at := now
          updated_at := now
          resolution_notes := none
          is_anonymous := false
          vote_count := 0
          urgency_level := data.urgency_level.getD "medium"
          normal_user_id := some identity.id
          assigned_admin_id := none }
      let db1 := { db with records := db.records ++ [r] }
      let db2 :=
        if optTruthy data.image_url || optTruthy data.video_url then
          { db1 with media := db1.media ++ [newMedia rid data.image_url data.video_url] }
        else db1
      .ok (r, db2)

/-! ## src/routes.py : pagination -/

/-- A raw query-string parameter as seen by `int(request.args.get(k, d))`:
absent, a string parsing to an integer, or a string `int()` rejects. -/
inductive RawParam where
  | missing
  | num (n : Int)
  | bad
deriving DecidableEq

/-- `get_pagination_params` (src/routes.py:21-34): defaults 1 and 10; a page
below 1 becomes 1; a page size outside `[1, 100]` becomes 10; if parsing
either parameter raises, both fall back to the defaults `(1, 10)`. -/
def get_pagination_params (pageP perP : RawParam) : Int × Int :=
  let parse : RawParam → Int → Option Int := fun p d =>
    match p with
    | .missing => some d
    | .num n => some n
    | .bad => none
  match parse pageP 1, parse perP 10 with
  | some page, some per_page =>
    let page := if page < 1 then 1 else page
    let per_page := if per_page < 1 || per_page > 100 then 10 else per_page
    (page, per_page)
  | _, _ => (1, 10)

/-! ## src/models.py : serializers -/

def optStrVal : Option String → Val
  | some s => .str s
  | none => .null

def optNatVal : Option Nat → Val
  | some n => .nat n
  | none => .null

def optRatVal : Option ℚ → Val
  | some q => .rat q
  | none => .null

/-- `Media.to_dict` (src/models.py:146-157); the surrogate id and upload
timestamp, never read by any route, are omitted. -/
def Media.to_dict (m : Media) : Dict :=
  [ ("record_id", .nat m.record_id),
    ("media_type", .str m.media_type),
    ("media_url", optStrVal m.media_url),
    ("filename", optStrVal m.filename),
    ("file_size", optNatVal m.file_size),
    ("image_url", optStrVal m.image_url),
    ("video_url", optStrVal m.video_url) ]

/-- `self.media[0] if self.media else None`. -/
def firstMedia (db : DB) (rid : Nat) : Option Media :=
  (db.media.filter (fun m => m.record_id == rid)).head?

/-- `Record.to_dict` (src/models.py:88-120): the full projection, including
`normal_user_id` and a `creator_name` that names the owner of a
non-anonymous record. -/
def Record.to_dict (r : Record) (db : DB) : Dict :=
  let media := firstMedia db r.id
  [ ("id", .nat r.id),
    ("type", .str r.type),
    ("title", .str r.title),
    ("description", .str r.description),
    ("status", .str r.status),
    ("latitude", optRatVal r.latitude),
    ("longitude", optRatVal r.longitude),
    ("location_name", optStrVal r.location_name),
    ("urgency_level", .str r.urgency_level),
    ("vote_count", .nat r.vote_count),
    ("is_anonymous", .bool r.is_anonymous),
    ("resolution_notes", optStrVal r.resolution_notes),
    ("normal_user_id", optNatVal r.normal_user_id),
    ("assigned_admin_id", optNatVal r.assigned_admin_id),
    ("created_at", .nat r.created_at),
    ("updated_at", .nat r.updated_at),
    ("image_url",
      match media with
      | some m => match m.image_url with
        | some s => if s == "" then .null else .str s
        | none => .null
      | none => .null),
    ("video_url",
      match media with
      | some m => match m.video_url with
        | some s => if s == "" then .null else .str s
        | none => .null
      | none => .null),
    ("media", .list ((db.media.filter (fun m => m.record_id == r.id)).map
      (fun m => .dict m.to_dict))),
    ("creator_name", .str
      (match r.normal_user_id with
       | some uid =>
         match findUser db uid with
         | some u => if r.is_anonymous then "Anonymous" else u.name
         | none => "Anonymous"
       | none => "Anonymous")) ]

/-- `Record.to_public_dict` (src/models.py:122-129): the public projection;
the guard `if self.is_anonymous or True:` is always taken, so
`normal_user_id` is always popped and `creator_name` always overwritten. -/
def Record.to_public_dict (r : Record) (db : DB) : Dict :=
  let data := r.to_dict db
  let data := dictPop "normal_user_id" data
  dictSet "creator_name" (.str "Anonymous") data

/-- The items of `GET /public/records` before filters/search/pagination
narrow them (src/routes.py:219,251-252): non-draft records rendered through
the public projection. -/
def get_public_records_items (db : DB) : List Dict :=
  (db.records.filter (fun r => !(r.status == "draft"))).map
    (fun r => r.to_public_dict db)

/-! ## Invariants and operation sequences -/

/-- The cached `vote_count` of every record equals the live number of vote
rows referencing it (irrespective of `vote_type`). -/
def voteCountInv (db : DB) : Prop :=
  ∀ r ∈ db.records, r.vote_count = countVotes db r.id

/-- A vote operation as issued against the voting endpoints. -/
inductive VoteOp where
  | cast (identity : Identity) (rid : Nat) (body : VoteBody) (now : Nat)
  | retract (identity : Identity) (rid : Nat)

/-- Run one vote operation; a failed request leaves the state unchanged. -/
def applyVoteOp (db : DB) (op : VoteOp) : DB :=
  match op with
  | .cast i rid body now => runDB db (vote_record i rid body now db)
  | .retract i rid => runDB db (remove_vote i rid db)

/-- The vote rows of one `(record, user)` pair. -/
def pairVotes (db : DB) (rid uid : Nat) : List Vote :=
  db.votes.filter (fun v => v.record_id == rid && v.user_id == uid)

/-! ## Concrete states used as witnesses -/

def emptyDB : DB := ⟨[], [], [], [], []⟩

/-- A resolved, owned, already-assigned record with id 1. -/
def sampleRecord : Record :=
  { id := 1, type := "red-flag", title := "t", description := "d",
    status := "resolved", latitude := none, longitude := none,
    location_name := none, created_at := 0, updated_at := 0,
    resolution_notes := none, is_anonymous := false, vote_count := 0,
    urgency_level := "medium", normal_user_id := some 1,
    assigned_admin_id := some 2 }

def sampleDB : DB := ⟨[⟨1, "Alice"⟩], [sampleRecord], [], [], []⟩

/-- An owned draft record with id 3. -/
def draftRecord : Record :=
  { sampleRecord with id := 3, status := "draft", assigned_admin_id := none }

def draftDB : DB := ⟨[⟨1, "Alice"⟩], [draftRecord], [], [], []⟩

/-- An under-investigation record with id 4 and no assigned admin yet. -/
def unassignedRecord : Record :=
  { sampleRecord with
    id := 4
    status := "under-investigation"
    assigned_admin_id := none }

def unassignedDB : DB := ⟨[⟨1, "Alice"⟩], [unassignedRecord], [], [], []⟩

/-- A record with one existing "support" vote by user 4 (count cached). -/
def dbv : DB :=
  ⟨[⟨4, "Bob"⟩],
   [{ sampleRecord with status := "under-investigation", vote_count := 1 }],
   [], [⟨1, 4, "support", 0⟩], []⟩

/-- The state after user 4 re-casts the vote as "urgent". -/
def dbvCast : DB := runDB dbv (vote_record ⟨4, "user"⟩ 1 ⟨some "urgent"⟩ 1 dbv)

def voteOpsSample : List VoteOp :=
  [.cast ⟨4, "user"⟩ 1 ⟨some "support"⟩ 1,
   .cast ⟨4, "user"⟩ 1 ⟨some "urgent"⟩ 2,
   .retract ⟨4, "user"⟩ 1,
   .retract ⟨4, "user"⟩ 1]

def emptyPatch : RecordPatch := ⟨none, none, none, none, none, none, none, none, none⟩

/-- A patch carrying a type outside the allowed set. -/
def typePatch : RecordPatch :=
  ⟨none, none, some "not-a-valid-type", none, none, none, none, none, none⟩

def afterTypePatch : DB := runDB draftDB (update_record ⟨1, "user"⟩ 3 typePatch 7 draftDB)

def statusBody1 : StatusBody := ⟨some "under-investigation", none, none⟩

/-- The state after an admin requests `resolved → under-investigation`. -/
def c1After : DB :=
  runDB sampleDB (update_status ⟨7, "admin"⟩ 1 statusBody1 5 sampleDB)

/-- First admin transition on the unassigned record. -/
def afterFirstAssign : DB :=
  runDB unassignedDB (update_status ⟨7, "admin"⟩ 4 statusBody1 5 unassignedDB)

/-- A later admin's transition on the already-assigned record. -/
def afterSecondAdmin : DB :=
  runDB sampleDB (update_status ⟨9, "admin"⟩ 1 ⟨some "resolved", none, none⟩ 6 sampleDB)

def anonBody : CreateBody :=
  ⟨some "Bribe at checkpoint", some "There was a bribe", some "red-flag",
   none, none, none, none, none, none⟩

def anonResult : Record × DB :=
  match anonymous_report anonBody 2 emptyDB with
  | .ok p => p
  | .error _ => (sampleRecord, emptyDB)

/-- An anonymous report with an out-of-range latitude. -/
def badCoordBody : CreateBody :=
  ⟨some "t", some "d", some "red-flag", some 200, some 10, none, none, none, none⟩

def badCoordResult : Record × DB :=
  match anonymous_report badCoordBody 3 emptyDB with
  | .ok p => p
  | .error _ => (sampleRecord, emptyDB)

/-- An authenticated creation with a non-http image URL. -/
def badImageBody : CreateBody :=
  ⟨some "t", some "d", some "red-flag", none, none, none, none,
   some "ftp://host/pic.jpg", none⟩

/-! ## Helper lemmas -/

theorem findRecord_some_id {db : DB} {rid : Nat} {r : Record}
    (h : findRecord db rid = some r) : r.id = rid := by
  unfold findRecord at h
  have := List.find?_some h
  simpa using this

theorem find?_map_set (l : List Record) (r' : Record) (rid : Nat)
    (hid : r'.id = rid) (h : (l.find? (fun x => x.id == rid)).isSome) :
    (l.map (fun x => if x.id == r'.id then r' else x)).find? (fun x => x.id == rid) =
      some r' := by
  induction l with
  | nil => simp at h
  | cons a l ih =>
    by_cases ha : a.id = rid
    · have hfa : (if a.id == r'.id then r' else a) = r' := by
        rw [hid]; simp [ha]
      rw [List.map_cons, hfa, List.find?_cons_of_pos _ (by simp [hid])]
    · have ha' : ¬((fun x : Record => x.id == rid) a = true) := by simpa using ha
      have hfa : (if a.id == r'.id then r' else a) = a := by
        rw [hid]; simp [ha]
      rw [List.map_cons, hfa,
        List.find?_cons_of_neg (p := fun x : Record => x.id == rid) _ ha']
      rw [List.find?_cons_of_neg (p := fun x : Record => x.id == rid) _ ha'] at h
      exact ih h

theorem findRecord_setRecord (db : DB) (r' : Record) (rid : Nat)
    (hid : r'.id = rid) (h : (findRecord db rid).isSome) :
    findRecord (setRecord db r') rid = some r' := by
  unfold findRecord at h
  unfold findRecord setRecord
  exact find?_map_set db.records r' rid hid h

/-! ## Claims -/

/-- C6: The public projection `to_public_dict` never contains the
`normal_user_id` key and always reports `creator_name = "Anonymous"`,
whatever the record's `is_anonymous` flag and owner. -/
theorem C6_public_projection (r : Record) (db : DB) :
    dictGet "normal_user_id" (r.to_public_dict db) = none ∧
    dictGet "creator_name" (r.to_public_dict db) = some (Val.str "Anonymous") :=
  ⟨rfl, rfl⟩

/-- C9: pagination parameters resolve with defaults 1 and 10; the page is
floored at 1; a page size outside `[1, 100]` falls back to the default 10
(so the resolved size always lies in `[1, 100]`); a parse failure of either
parameter falls back to the defaults `(1, 10)`. -/
theorem C9_pagination :
    (∀ p q, 1 ≤ (get_pagination_params p q).1 ∧
      1 ≤ (get_pagination_params p q).2 ∧ (get_pagination_params p q).2 ≤ 100) ∧
    get_pagination_params .missing .missing = (1, 10) ∧
    (∀ q, get_pagination_params .bad q = (1, 10)) ∧
    (∀ p, get_pagination_params p .bad = (1, 10)) ∧
    (∀ n q, q ≠ .bad → n < 1 → (get_pagination_params (.num n) q).1 = 1) ∧
    (∀ n q, q ≠ .bad → 1 ≤ n → (get_pagination_params (.num n) q).1 = n) ∧
    (∀ p n, p ≠ .bad → (n < 1 ∨ 100 < n) → (get_pagination_params p (.num n)).2 = 10) ∧
    (∀ p n, p ≠ .bad → 1 ≤ n → n ≤ 100 → (get_pagination_params p (.num n)).2 = n) := by
  refine ⟨?_, rfl, ?_, ?_, ?_, ?_, ?_, ?_⟩
  · intro p q
    cases p <;> cases q <;> simp [get_pagination_params] <;> split_ifs <;> omega
  · intro q; cases q <;> rfl
  · intro p; cases p <;> rfl
  · intro n q hq hn
    cases q <;> simp_all [get_pagination_params]
  · intro n q hq hn
    cases q <;> simp_all [get_pagination_params]
  · intro p n hp hn
    cases p <;> simp_all [get_pagination_params]
  · intro p n hp h1 h2
    cases p <;> simp_all [get_pagination_params]

/-- C9 witness: page 0 floors to 1; per_page 500 falls back to 10; per_page
50 passes through. -/
theorem C9_witness :
    (RawParam.num 5 ≠ RawParam.bad) ∧
    (get_pagination_params (.num 0) (.num 5)).1 = 1 ∧
    (RawParam.num 2 ≠ RawParam.bad) ∧
    ((500 : Int) < 1 ∨ (100 : Int) < 500) ∧
    (get_pagination_params (.num 2) (.num 500)).2 = 10 ∧
    (get_pagination_params (.num 2) (.num 50)).2 = 50 :=
  ⟨by decide,
   C9_pagination.2.2.2.2.1 0 (.num 5) (by decide) (by decide),
   by decide,
   Or.inr (by decide),
   C9_pagination.2.2.2.2.2.2.1 (.num 2) 500 (by decide) (Or.inr (by decide)),
   C9_pagination.2.2.2.2.2.2.2 (.num 2) 50 (by decide) (by decide) (by decide)⟩

/-- C1 (counterexample): the admin status endpoint accepts a transition out
of the terminal state `resolved`: on `sampleDB`, whose only record is
resolved, requesting `under-investigation` succeeds and overwrites the
status, so transitions do not strictly follow the claimed state machine. -/
theorem C1_counterexample :
    sampleRecord.status = "resolved" ∧
    update_status ⟨7, "admin"⟩ 1 statusBody1 5 sampleDB = .ok c1After ∧
    (findRecord c1After 1).map Record.status = some "under-investigation" :=
  ⟨rfl, rfl, rfl⟩

theorem updateMedia_records (db : DB) (rid : Nat) (data : RecordPatch) :
    (updateMedia db rid data).records = db.records := by
  unfold updateMedia
  by_cases h : (data.image_url.isSome || data.video_url.isSome) = true
  · simp only [if_pos h]
    cases db.media.find? (fun m => m.record_id == rid) <;> rfl
  · simp only [if_neg h]

theorem findRecord_updateMedia (db : DB) (rid q : Nat) (data : RecordPatch) :
    findRecord (updateMedia db rid data) q = findRecord db q := by
  unfold findRecord
  rw [updateMedia_records]

/-- C5: every successful anonymous creation yields a record with
`status = 'under-investigation'` (never `draft`), no owning user, and
`is_anonymous = true`, and that record is stored. -/
theorem C5_anonymous_creation (data : CreateBody) (now : Nat) (db : DB)
    (r : Record) (db' : DB)
    (hok : anonymous_report data now db = .ok (r, db')) :
    r.status = "under-investigation" ∧ r.normal_user_id = none ∧
    r.is_anonymous = true ∧ r.status ≠ "draft" ∧ r ∈ db'.records := by
  simp only [anonymous_report] at hok
  split_ifs at hok <;> simp_all
  · obtain ⟨h1, h2⟩ := hok
    subst h1
    subst h2
    refine ⟨rfl, rfl, rfl, by simp, by simp⟩
  · obtain ⟨h1, h2⟩ := hok
    subst h1
    subst h2
    refine ⟨rfl, rfl, rfl, by simp, by simp⟩

/-- C5 witness: the concrete anonymous report `anonBody` on the empty
database. -/
theorem C5_witness :
    anonymous_report anonBody 2 emptyDB = .ok anonResult ∧
    anonResult.1.status = "under-investigation" ∧
    anonResult.1.normal_user_id = none ∧
    anonResult.1.is_anonymous = true ∧
    anonResult.1.status ≠ "draft" ∧
    anonResult.1 ∈ anonResult.2.records := by
  have h := C5_anonymous_creation anonBody 2 emptyDB anonResult.1 anonResult.2 rfl
  exact ⟨rfl, h.1, h.2.1, h.2.2.1, h.2.2.2.1, h.2.2.2.2⟩

/-- C10: when an owner patch of a draft record carries a `type` key, a
successful update stores the supplied string verbatim, with no check against
the allowed type set. -/
theorem C10_patch_type_unvalidated (i : Identity) (rid : Nat) (data : RecordPatch)
    (now : Nat) (db db' : DB) (t : String)
    (htype : data.type = some t)
    (hok : update_record i rid data now db = .ok db') :
    (findRecord db' rid).map Record.type = some t := by
  cases hfind : findRecord db rid with
  | none => simp [update_record, hfind] at hok
  | some record =>
    have hid := findRecord_some_id hfind
    simp only [update_record, hfind] at hok
    split_ifs at hok
    cases hok
    rw [findRecord_updateMedia]
    rw [findRecord_setRecord db (patchedRecord data now record) rid
      (by simp [patchedRecord, hid]) (by rw [hfind]; rfl)]
    simp [patchedRecord, htype]

/-- C10 witness: patching the draft record with the out-of-set type
`"not-a-valid-type"` succeeds and stores it. -/
theorem C10_witness :
    valid_types.contains "not-a-valid-type" = false ∧
    typePatch.type = some "not-a-valid-type" ∧
    update_record ⟨1, "user"⟩ 3 typePatch 7 draftDB = .ok afterTypePatch ∧
    (findRecord afterTypePatch 3).map Record.type = some "not-a-valid-type" :=
  ⟨by decide, rfl, rfl,
   C10_patch_type_unvalidated ⟨1, "user"⟩ 3 typePatch 7 draftDB afterTypePatch
     "not-a-valid-type" rfl rfl⟩

/-- C7: `assigned_admin_id` is first-assignment-wins: a transition on a
record with no assigned admin assigns the acting admin; any transition on a
record already assigned to admin `a` (a real admin id, hence nonzero) leaves
the assignment unchanged. -/
theorem C7_assigned_admin_sticky :
    (∀ i rid body now db r db', findRecord db rid = some r →
      r.assigned_admin_id = none →
      update_status i rid body now db = .ok db' →
      (findRecord db' rid).map Record.assigned_admin_id = some (some i.id)) ∧
    (∀ i rid body now db r a db', findRecord db rid = some r →
      r.assigned_admin_id = some a → a ≠ 0 →
      update_status i rid body now db = .ok db' →
      (findRecord db' rid).map Record.assigned_admin_id = some (some a)) := by
  constructor
  · intro i rid body now db r db' hfind hnone hok
    have hid := findRecord_some_id hfind
    cases hbs : body.status with
    | none =>
      simp only [update_status, hfind, hbs] at hok
      split_ifs at hok
    | some ns =>
      simp only [update_status, hfind, hbs] at hok
      split_ifs at hok
      cases hok
      have hfr : findRecord
          { setRecord db (statusUpdatedRecord i body now r ns) with
            history := (setRecord db (statusUpdatedRecord i body now r ns)).history ++
              [⟨r.id, some r.status, ns, some i.id, some (body.reason.getD ""), now⟩] } rid =
          findRecord (setRecord db (statusUpdatedRecord i body now r ns)) rid := rfl
      rw [hfr, findRecord_setRecord db (statusUpdatedRecord i body now r ns) rid
        (by simp [statusUpdatedRecord, hid]) (by rw [hfind]; rfl)]
      simp [statusUpdatedRecord, hnone]
  · intro i rid body now db r a db' hfind hsome ha hok
    have hid := findRecord_some_id hfind
    cases hbs : body.status with
    | none =>
      simp only [update_status, hfind, hbs] at hok
      split_ifs at hok
    | some ns =>
      simp only [update_status, hfind, hbs] at hok
      split_ifs at hok
      cases hok
      have hfr : findRecord
          { setRecord db (statusUpdatedRecord i body now r ns) with
            history := (setRecord db (statusUpdatedRecord i body now r ns)).history ++
              [⟨r.id, some r.status, ns, some i.id, some (body.reason.getD ""), now⟩] } rid =
          findRecord (setRecord db (statusUpdatedRecord i body now r ns)) rid := rfl
      rw [hfr, findRecord_setRecord db (statusUpdatedRecord i body now r ns) rid
        (by simp [statusUpdatedRecord, hid]) (by rw [hfind]; rfl)]
      simp [statusUpdatedRecord, hsome, ha]

/-- C7 witness: admin 7 claims the unassigned record; admin 9's later
transition on the record assigned to admin 2 does not steal it. -/
theorem C7_witness :
    findRecord unassignedDB 4 = some unassignedRecord ∧
    unassignedRecord.assigned_admin_id = none ∧
    update_status ⟨7, "admin"⟩ 4 statusBody1 5 unassignedDB = .ok afterFirstAssign ∧
    (findRecord afterFirstAssign 4).map Record.assigned_admin_id = some (some 7) ∧
    findRecord sampleDB 1 = some sampleRecord ∧
    sampleRecord.assigned_admin_id = some 2 ∧
    update_status ⟨9, "admin"⟩ 1 ⟨some "resolved", none, none⟩ 6 sampleDB = .ok afterSecondAdmin ∧
    (findRecord afterSecondAdmin 1).map Record.assigned_admin_id = some (some 2) :=
  ⟨rfl, rfl, rfl,
   C7_assigned_admin_sticky.1 ⟨7, "admin"⟩ 4 statusBody1 5 unassignedDB
     unassignedRecord afterFirstAssign rfl rfl rfl,
   rfl, rfl, rfl,
   C7_assigned_admin_sticky.2 ⟨9, "admin"⟩ 1 ⟨some "resolved", none, none⟩ 6 sampleDB
     sampleRecord 2 afterSecondAdmin rfl rfl (by decide) rfl⟩

/-- C1 (amended): `update_status` enforces no transition guard at all: for an
admin caller, an existing record and a requested status in the valid set, the
call succeeds and overwrites the record's status with the requested one,
whatever the current status — including out of the terminal states
`resolved` and `rejected`. -/
theorem C1_no_transition_guard (i : Identity) (rid : Nat) (body : StatusBody)
    (now : Nat) (db : DB) (r : Record) (s : String)
    (hrole : i.role = "admin")
    (hfind : findRecord db rid = some r)
    (hs : body.status = some s)
    (hvalid : s = "under-investigation" ∨ s = "rejected" ∨ s = "resolved") :
    ∃ db', update_status i rid body now db = .ok db' ∧
      (findRecord db' rid).map Record.status = some s := by
  have hid := findRecord_some_id hfind
  have hv : (!(s == "under-investigation" || s == "rejected" || s == "resolved")) = false := by
    rcases hvalid with h | h | h <;> simp [h]
  refine ⟨{ setRecord db (statusUpdatedRecord i body now r s) with
      history := (setRecord db (statusUpdatedRecord i body now r s)).history ++
        [⟨r.id, some r.status, s, some i.id, some (body.reason.getD ""), now⟩] }, ?_, ?_⟩
  · simp [update_status, hrole, hfind, hs, hv]
  · have hfr : findRecord
        { setRecord db (statusUpdatedRecord i body now r s) with
          history := (setRecord db (statusUpdatedRecord i body now r s)).history ++
            [⟨r.id, some r.status, s, some i.id, some (body.reason.getD ""), now⟩] } rid =
        findRecord (setRecord db (statusUpdatedRecord i body now r s)) rid := rfl
    rw [hfr, findRecord_setRecord db (statusUpdatedRecord i body now r s) rid
      (by simp [statusUpdatedRecord, hid]) (by rw [hfind]; rfl)]
    simp [statusUpdatedRecord]

/-- C1 witness: the amended behavior at a concrete input — admin 7 moves the
resolved `sampleRecord` to `rejected` and the overwrite succeeds. -/
theorem C1_witness :
    sampleRecord.status = "resolved" ∧
    findRecord sampleDB 1 = some sampleRecord ∧
    ∃ db', update_status ⟨7, "admin"⟩ 1 ⟨some "rejected", none, none⟩ 5 sampleDB = .ok db' ∧
      (findRecord db' 1).map Record.status = some "rejected" :=
  ⟨rfl, rfl,
   C1_no_transition_guard ⟨7, "admin"⟩ 1 ⟨some "rejected", none, none⟩ 5 sampleDB
     sampleRecord "rejected" rfl rfl rfl (Or.inr (Or.inl rfl))⟩

/-- C4: the ownership and draft-state guards of update/delete behave as
claimed (403 for a non-owner, 400 for a non-draft record, no state change on
any failure), but an absent record does NOT produce a 404: the `NotFound`
raised by `get_or_404` is caught by the handler's catch-all `except`, which
answers with the generic 500 message instead. -/
theorem C4_guard_behavior :
    (∀ i id data now db, findRecord db id = none →
      update_record i id data now db = .error ⟨500, "Failed to update record"⟩) ∧
    (∀ i id db, findRecord db id = none →
      delete_record i id db = .error ⟨500, "Failed to delete record"⟩) ∧
    (∀ i id data now db r, findRecord db id = some r →
      (¬i.role = "user" ∨ ¬r.normal_user_id = some i.id) →
      update_record i id data now db = .error ⟨403, "Unauthorized"⟩) ∧
    (∀ i id data now db r, findRecord db id = some r → i.role = "user" →
      r.normal_user_id = some i.id → ¬r.status = "draft" →
      update_record i id data now db = .error ⟨400, "Only draft records can be edited"⟩) ∧
    (∀ i id db r, findRecord db id = some r →
      (¬i.role = "user" ∨ ¬r.normal_user_id = some i.id) →
      delete_record i id db = .error ⟨403, "Unauthorized"⟩) ∧
    (∀ i id db r, findRecord db id = some r → i.role = "user" →
      r.normal_user_id = some i.id → ¬r.status = "draft" →
      delete_record i id db = .error ⟨400, "Only draft records can be deleted"⟩) ∧
    (∀ i id data now db e, update_record i id data now db = .error e →
      runDB db (update_record i id data now db) = db) ∧
    (∀ i id db e, delete_record i id db = .error e →
      runDB db (delete_record i id db) = db) := by
  refine ⟨?_, ?_, ?_, ?_, ?_, ?_, ?_, ?_⟩
  · intro i id data now db h
    simp [update_record, h]
  · intro i id db h
    simp [delete_record, h]
  · intro i id data now db r hfind hauth
    have hc : (!(i.role == "user") || !(r.normal_user_id == some i.id)) = true := by
      rcases hauth with h | h <;> simp [h]
    simp [update_record, hfind, hc]
  · intro i id data now db r hfind hrole hown hdraft
    have hc : (!(i.role == "user") || !(r.normal_user_id == some i.id)) = false := by
      simp [hrole, hown]
    have hd : (!(r.status == "draft")) = true := by simp [hdraft]
    simp [update_record, hfind, hc, hd]
  · intro i id db r hfind hauth
    have hc : (!(i.role == "user") || !(r.normal_user_id == some i.id)) = true := by
      rcases hauth with h | h <;> simp [h]
    simp [delete_record, hfind, hc]
  · intro i id db r hfind hrole hown hdraft
    have hc : (!(i.role == "user") || !(r.normal_user_id == some i.id)) = false := by
      simp [hrole, hown]
    have hd : (!(r.status == "draft")) = true := by simp [hdraft]
    simp [delete_record, hfind, hc, hd]
  · intro i id data now db e he
    simp [runDB, he]
  · intro i id db e he
    simp [runDB, he]

/-- C4 witness: concrete runs of the guards — an absent record answers the
generic 500 (not 404), a non-draft record answers 400, a non-owner answers
403. -/
theorem C4_witness :
    findRecord emptyDB 1 = none ∧
    update_record ⟨1, "user"⟩ 1 emptyPatch 0 emptyDB = .error ⟨500, "Failed to update record"⟩ ∧
    findRecord sampleDB 1 = some sampleRecord ∧
    ¬sampleRecord.status = "draft" ∧
    update_record ⟨1, "user"⟩ 1 emptyPatch 0 sampleDB = .error ⟨400, "Only draft records can be edited"⟩ ∧
    delete_record ⟨2, "user"⟩ 1 sampleDB = .error ⟨403, "Unauthorized"⟩ :=
  ⟨rfl,
   C4_guard_behavior.1 ⟨1, "user"⟩ 1 emptyPatch 0 emptyDB rfl,
   rfl,
   by decide,
   C4_guard_behavior.2.2.2.1 ⟨1, "user"⟩ 1 emptyPatch 0 sampleDB sampleRecord rfl rfl rfl
     (by decide),
   C4_guard_behavior.2.2.2.2.1 ⟨2, "user"⟩ 1 sampleDB sampleRecord rfl
     (Or.inr (by decide))⟩

/-- C8 (counterexample): the anonymous creation path performs no coordinate
validation: a report with latitude 200 (out of `[-90, 90]`) is accepted and
stored, so the claim that both creation paths reject out-of-range coordinates
is false. -/
theorem C8_counterexample :
    validate_coordinates (some 200) (some 10) = false ∧
    anonymous_report badCoordBody 3 emptyDB = .ok badCoordResult ∧
    badCoordResult.1.latitude = some 200 ∧
    badCoordResult.1 ∈ badCoordResult.2.records :=
  ⟨by decide, rfl, rfl, by decide⟩

/-- C8 (amended): only the authenticated creation path validates coordinates
and media URLs, rejecting with a 400 and storing nothing; the anonymous path
performs no such validation and stores the record (with whatever coordinates
were supplied) whenever title, description and a valid type are present. -/
theorem C8_creation_validation :
    (∀ i data now db, i.role = "user" → optTruthy data.title = true →
      (data.latitude.isSome || data.longitude.isSome) = true →
      validate_coordinates data.latitude data.longitude = false →
      create_record i data now db = .error ⟨400, "Invalid coordinates provided"⟩) ∧
    (∀ i data now db, i.role = "user" → optTruthy data.title = true →
      ((data.latitude.isSome || data.longitude.isSome) &&
        !(validate_coordinates data.latitude data.longitude)) = false →
      optTruthy data.image_url = true →
      validate_media_url (data.image_url.getD "") (some "image") = false →
      create_record i data now db = .error ⟨400, "Invalid image URL format"⟩) ∧
    (∀ i data now db, i.role = "user" → optTruthy data.title = true →
      ((data.latitude.isSome || data.longitude.isSome) &&
        !(validate_coordinates data.latitude data.longitude)) = false →
      (optTruthy data.image_url &&
        !(validate_media_url (data.image_url.getD "") (some "image"))) = false →
      optTruthy data.video_url = true →
      validate_media_url (data.video_url.getD "") (some "video") = false →
      create_record i data now db = .error ⟨400, "Invalid video URL format"⟩) ∧
    (∀ i data now db e, create_record i data now db = .error e →
      runCreate db (create_record i data now db) = db) ∧
    (∀ data now db, optTruthy data.title = true → optTruthy data.description = true →
      (valid_types.any (fun t => some t == data.type)) = true →
      ∃ r db', anonymous_report data now db = .ok (r, db') ∧ r ∈ db'.records ∧
        r.latitude = data.latitude ∧ r.longitude = data.longitude) := by
  refine ⟨?_, ?_, ?_, ?_, ?_⟩
  · intro i data now db hrole htitle hsome hbad
    have h1 : (!(i.role == "user")) = false := by simp [hrole]
    have h2 : (!(optTruthy data.title)) = false := by simp [htitle]
    have h3 : ((data.latitude.isSome || data.longitude.isSome) &&
        !(validate_coordinates data.latitude data.longitude)) = true := by
      simp [hsome, hbad]
    simp [create_record, h1, h2, h3]
  · intro i data now db hrole htitle hcoords himg hbad
    have h1 : (!(i.role == "user")) = false := by simp [hrole]
    have h2 : (!(optTruthy data.title)) = false := by simp [htitle]
    have h3 : (optTruthy data.image_url &&
        !(validate_media_url (data.image_url.getD "") (some "image"))) = true := by
      simp [himg, hbad]
    simp [create_record, h1, h2, hcoords, h3]
  · intro i data now db hrole htitle hcoords himg hvid hbad
    have h1 : (!(i.role == "user")) = false := by simp [hrole]
    have h2 : (!(optTruthy data.title)) = false := by simp [htitle]
    have h3 : (optTruthy data.video_url &&
        !(validate_media_url (data.video_url.getD "") (some "video"))) = true := by
      simp [hvid, hbad]
    simp [create_record, h1, h2, hcoords, himg, h3]
  · intro i data now db e he
    simp [runCreate, he]
  · intro data now db ht hd htype
    cases hres : anonymous_report data now db with
    | error e =>
      simp only [anonymous_report] at hres
      split_ifs at hres with g1 g2 <;> simp_all
      obtain ⟨x, hx, hxe⟩ := htype
      exact g2 x hx hxe
    | ok p =>
      obtain ⟨r, db'⟩ := p
      refine ⟨r, db', rfl, ?_⟩
      simp only [anonymous_report] at hres
      split_ifs at hres <;> simp_all
      · obtain ⟨h1, h2⟩ := hres
        subst h1
        subst h2
        exact ⟨by simp, rfl, rfl⟩
      · obtain ⟨h1, h2⟩ := hres
        subst h1
        subst h2
        exact ⟨by simp, rfl, rfl⟩

/-- C8 witness: the authenticated path rejects the out-of-range latitude and
the `ftp://` image URL; the same invalid image URL goes straight through the
anonymous path. -/
theorem C8_witness :
    optTruthy badCoordBody.title = true ∧
    (badCoordBody.latitude.isSome || badCoordBody.longitude.isSome) = true ∧
    validate_coordinates badCoordBody.latitude badCoordBody.longitude = false ∧
    create_record ⟨1, "user"⟩ badCoordBody 0 emptyDB =
      .error ⟨400, "Invalid coordinates provided"⟩ ∧
    optTruthy badImageBody.image_url = true ∧
    validate_media_url (badImageBody.image_url.getD "") (some "image") = false ∧
    create_record ⟨1, "user"⟩ badImageBody 0 emptyDB =
      .error ⟨400, "Invalid image URL format"⟩ ∧
    ∃ r db', anonymous_report badImageBody 4 emptyDB = .ok (r, db') ∧
      r ∈ db'.records ∧ r.latitude = badImageBody.latitude ∧
      r.longitude = badImageBody.longitude :=
  ⟨rfl, rfl, by decide,
   C8_creation_validation.1 ⟨1, "user"⟩ badCoordBody 0 emptyDB rfl rfl rfl (by decide),
   rfl, by decide,
   C8_creation_validation.2.1 ⟨1, "user"⟩ badImageBody 0 emptyDB rfl rfl (by decide)
     rfl (by decide),
   C8_creation_validation.2.2.2.2 badImageBody 4 emptyDB rfl rfl (by decide)⟩

/-! ## Vote-counting lemmas -/

theorem filterRec_updateFirstVote (vs : List Vote) (rid uid : Nat) (vt : String) (q : Nat) :
    ((updateFirstVote vs rid uid vt).filter (fun v => v.record_id == q)).length =
    (vs.filter (fun v => v.record_id == q)).length := by
  induction vs with
  | nil => rfl
  | cons v vs ih =>
    simp only [updateFirstVote]
    by_cases h : (v.record_id == rid && v.user_id == uid) = true
    · rw [if_pos h]
      simp only [List.filter_cons]
      by_cases hq : (v.record_id == q) = true
      · simp [hq]
      · simp [hq]
    · rw [if_neg h]
      simp only [List.filter_cons]
      by_cases hq : (v.record_id == q) = true
      · simp [hq, ih]
      · simp [hq, ih]

theorem length_updateFirstVote (vs : List Vote) (rid uid : Nat) (vt : String) :
    (updateFirstVote vs rid uid vt).length = vs.length := by
  induction vs with
  | nil => rfl
  | cons v vs ih =>
    simp only [updateFirstVote]
    by_cases h : (v.record_id == rid && v.user_id == uid) = true
    · rw [if_pos h]; rfl
    · rw [if_neg h]; simp [ih]

theorem filterRec_append_ne (vs : List Vote) (w : Vote) (q : Nat)
    (hq : (w.record_id == q) = false) :
    (vs ++ [w]).filter (fun v => v.record_id == q) =
    vs.filter (fun v => v.record_id == q) := by
  simp [List.filter_append, hq]

theorem filterRec_eraseFirstVote_ne (vs : List Vote) (rid uid q : Nat) (hq : ¬ q = rid) :
    (eraseFirstVote vs rid uid).filter (fun v => v.record_id == q) =
    vs.filter (fun v => v.record_id == q) := by
  induction vs with
  | nil => rfl
  | cons v vs ih =>
    simp only [eraseFirstVote]
    by_cases h : (v.record_id == rid && v.user_id == uid) = true
    · rw [if_pos h]
      have h1 : v.record_id = rid := by
        have := h
        simp only [Bool.and_eq_true, beq_iff_eq] at this
        exact this.1
      have h2 : (v.record_id == q) = false := by
        simp only [h1, beq_eq_false_iff_ne]
        intro hc
        exact hq hc.symm
      rw [List.filter_cons]
      simp [h2]
    · rw [if_neg h]
      simp only [List.filter_cons]
      by_cases hq2 : (v.record_id == q) = true
      · simp [hq2, ih]
      · simp [hq2, ih]

theorem votes_setRecord (db : DB) (r : Record) : (setRecord db r).votes = db.votes := rfl

theorem votes_update_vote_count (rid : Nat) (db : DB) :
    (update_vote_count rid db).2.votes = db.votes := by
  unfold update_vote_count
  cases hf : findRecord db rid <;> simp [hf, setRecord]

theorem update_vote_count_inv (db : DB) (rid : Nat)
    (h : ∀ r ∈ db.records, ¬ r.id = rid → r.vote_count = countVotes db r.id) :
    voteCountInv (update_vote_count rid db).2 := by
  unfold update_vote_count
  cases hf : findRecord db rid with
  | none =>
    intro r hr
    refine h r hr ?_
    intro he
    have hnone := List.find?_eq_none.mp hf r hr
    simp [he] at hnone
  | some r0 =>
    have hr0id : r0.id = rid := findRecord_some_id hf
    intro r hr
    simp only [setRecord, List.mem_map] at hr
    obtain ⟨x, hx, hfx⟩ := hr
    have hcv : ∀ q, countVotes (setRecord db { r0 with vote_count := countVotes db rid }) q =
        countVotes db q := fun q => by
      simp [countVotes, votes_setRecord]
    show r.vote_count =
      countVotes (setRecord db { r0 with vote_count := countVotes db rid }) r.id
    rw [hcv]
    split at hfx
    · subst hfx
      simp [hr0id]
    · rename_i hcond
      subst hfx
      refine h x hx ?_
      intro he
      exact hcond (by simp [he, hr0id])

theorem vote_record_inv (i : Identity) (rid : Nat) (body : VoteBody) (now : Nat)
    (db : DB) (h : voteCountInv db) :
    voteCountInv (runDB db (vote_record i rid body now db)) := by
  by_cases h1 : (!(i.role == "user")) = true
  · simpa [vote_record, h1, runDB] using h
  · by_cases h2 : (!(body.vote_type.getD "support" == "support") &&
        !(body.vote_type.getD "support" == "urgent")) = true
    · simpa [vote_record, h1, h2, runDB] using h
    · cases hf : findRecord db rid with
      | none => simpa [vote_record, h1, h2, hf, runDB] using h
      | some r0 =>
        cases hex : db.votes.find? (fun v => v.record_id == rid && v.user_id == i.id) with
        | some v0 =>
          have hrun : runDB db (vote_record i rid body now db) =
              (update_vote_count rid
                { db with votes :=
                    updateFirstVote db.votes rid i.id (body.vote_type.getD "support") }).2 := by
            simp [vote_record, h1, h2, hf, hex, runDB]
          rw [hrun]
          apply update_vote_count_inv
          intro r hr hne
          rw [h r hr]
          exact (filterRec_updateFirstVote db.votes rid i.id
            (body.vote_type.getD "support") r.id).symm
        | none =>
          have hrun : runDB db (vote_record i rid body now db) =
              (update_vote_count rid
                { db with votes :=
                    db.votes ++ [⟨rid, i.id, body.vote_type.getD "support", now⟩] }).2 := by
            simp [vote_record, h1, h2, hf, hex, runDB]
          rw [hrun]
          apply update_vote_count_inv
          intro r hr hne
          rw [h r hr]
          exact congrArg List.length (filterRec_append_ne db.votes
            ⟨rid, i.id, body.vote_type.getD "support", now⟩ r.id
            (by simp; intro hc; exact hne hc.symm)).symm

theorem remove_vote_inv (i : Identity) (rid : Nat) (db : DB) (h : voteCountInv db) :
    voteCountInv (runDB db (remove_vote i rid db)) := by
  by_cases h1 : (!(i.role == "user")) = true
  · simpa [remove_vote, h1, runDB] using h
  · cases hex : db.votes.find? (fun v => v.record_id == rid && v.user_id == i.id) with
    | none => simpa [remove_vote, h1, hex, runDB] using h
    | some v0 =>
      have hrun : runDB db (remove_vote i rid db) =
          (update_vote_count rid { db with votes := eraseFirstVote db.votes rid i.id }).2 := by
        simp [remove_vote, h1, hex, runDB]
      rw [hrun]
      apply update_vote_count_inv
      intro r hr hne
      rw [h r hr]
      exact congrArg List.length (filterRec_eraseFirstVote_ne db.votes rid i.id r.id hne).symm

theorem applyVoteOp_inv (db : DB) (op : VoteOp) (h : voteCountInv db) :
    voteCountInv (applyVoteOp db op) := by
  cases op with
  | cast i rid body now => exact vote_record_inv i rid body now db h
  | retract i rid => exact remove_vote_inv i rid db h

/-- C2: from any state whose cached `vote_count`s agree with the vote rows,
any sequence of vote cast/retract requests preserves the agreement: every
record's `vote_count` stays equal to the number of vote rows referencing it,
irrespective of `vote_type`. -/
theorem C2_vote_count_consistency (ops : List VoteOp) (db : DB) (h : voteCountInv db) :
    voteCountInv (ops.foldl applyVoteOp db) := by
  induction ops generalizing db with
  | nil => exact h
  | cons op ops ih => exact ih (applyVoteOp db op) (applyVoteOp_inv db op h)

/-- C2 witness: a concrete cast/re-cast/retract/retract sequence on `dbv`. -/
theorem C2_witness :
    voteCountInv dbv ∧ voteCountInv (voteOpsSample.foldl applyVoteOp dbv) :=
  have hinv : voteCountInv dbv := by
    unfold voteCountInv
    decide
  ⟨hinv, C2_vote_count_consistency voteOpsSample dbv hinv⟩

/-! ## C3 lemmas -/

theorem pairVotes_update_vote_count (rid2 : Nat) (db : DB) (rid uid : Nat) :
    pairVotes (update_vote_count rid2 db).2 rid uid = pairVotes db rid uid := by
  unfold pairVotes
  rw [votes_update_vote_count]

theorem votes_length_update_vote_count (rid : Nat) (db : DB) :
    (update_vote_count rid db).2.votes.length = db.votes.length := by
  rw [votes_update_vote_count]

theorem pairFilter_updateFirstVote (vs : List Vote) (rid uid : Nat) (vt : String) (v : Vote)
    (hfind : vs.find? (fun w => w.record_id == rid && w.user_id == uid) = some v)
    (hone : (vs.filter (fun w => w.record_id == rid && w.user_id == uid)).length ≤ 1) :
    (updateFirstVote vs rid uid vt).filter
      (fun w => w.record_id == rid && w.user_id == uid) = [{ v with vote_type := vt }] := by
  induction vs with
  | nil => simp at hfind
  | cons w vs ih =>
    by_cases h : (w.record_id == rid && w.user_id == uid) = true
    · rw [List.find?_cons_of_pos (p := fun w : Vote => w.record_id == rid && w.user_id == uid)
        _ h] at hfind
      injection hfind with hv
      subst hv
      simp only [updateFirstVote, if_pos h]
      rw [List.filter_cons]
      have h' : (({ w with vote_type := vt } : Vote).record_id == rid &&
          ({ w with vote_type := vt } : Vote).user_id == uid) = true := h
      have hlen : (vs.filter (fun w => w.record_id == rid && w.user_id == uid)).length = 0 := by
        rw [List.filter_cons, if_pos h] at hone
        simp only [List.length_cons] at hone
        omega
      simp [h', List.length_eq_zero.mp hlen]
    · rw [List.find?_cons_of_neg (p := fun w : Vote => w.record_id == rid && w.user_id == uid)
        _ h] at hfind
      simp only [updateFirstVote, if_neg h]
      rw [List.filter_cons]
      simp only [h, Bool.false_eq_true, if_false]
      apply ih hfind
      rw [List.filter_cons] at hone
      simpa [h] using hone

/-- C3: a successful vote cast leaves exactly one vote row for the
`(record, user)` pair, carrying the requested type; when the pair already had
a row it is updated in place, so the total number of vote rows does not
grow. -/
theorem C3_one_vote_row_per_pair (i : Identity) (rid : Nat) (body : VoteBody) (now : Nat)
    (db db' : DB)
    (hone : (pairVotes db rid i.id).length ≤ 1)
    (hok : vote_record i rid body now db = .ok db') :
    (pairVotes db' rid i.id).map Vote.vote_type = [body.vote_type.getD "support"] ∧
    ((pairVotes db rid i.id).length = 1 → db'.votes.length = db.votes.length) := by
  by_cases h1 : (!(i.role == "user")) = true
  · simp [vote_record, h1] at hok
  · by_cases h2 : (!(body.vote_type.getD "support" == "support") &&
        !(body.vote_type.getD "support" == "urgent")) = true
    · simp [vote_record, h1, h2] at hok
    · cases hf : findRecord db rid with
      | none => simp [vote_record, h1, h2, hf] at hok
      | some r0 =>
        cases hex : db.votes.find? (fun v => v.record_id == rid && v.user_id == i.id) with
        | some v0 =>
          simp only [vote_record, h1, h2, hf, hex] at hok
          injection hok with hok
          subst hok
          constructor
          · rw [pairVotes_update_vote_count]
            show ((updateFirstVote db.votes rid i.id (body.vote_type.getD "support")).filter
              (fun v => v.record_id == rid && v.user_id == i.id)).map Vote.vote_type = _
            rw [pairFilter_updateFirstVote db.votes rid i.id
              (body.vote_type.getD "support") v0 hex hone]
            simp
          · intro _
            rw [votes_length_update_vote_count]
            show (updateFirstVote db.votes rid i.id (body.vote_type.getD "support")).length =
              db.votes.length
            exact length_updateFirstVote db.votes rid i.id (body.vote_type.getD "support")
        | none =>
          have hempty : db.votes.filter
              (fun v => v.record_id == rid && v.user_id == i.id) = [] :=
            List.filter_eq_nil_iff.mpr (List.find?_eq_none.mp hex)
          simp only [vote_record, h1, h2, hf, hex] at hok
          injection hok with hok
          subst hok
          constructor
          · rw [pairVotes_update_vote_count]
            show ((db.votes ++ [(⟨rid, i.id, body.vote_type.getD "support", now⟩ : Vote)]).filter
              (fun v => v.record_id == rid && v.user_id == i.id)).map Vote.vote_type = _
            rw [List.filter_append, hempty]
            simp
          · intro hlen
            exfalso
            have hpv : pairVotes db rid i.id = [] := hempty
            rw [hpv] at hlen
            simp at hlen

/-- C3 witness: user 4 already voted "support" on record 1 in `dbv`;
re-casting as "urgent" leaves exactly one row with type "urgent" and the
same total number of vote rows. -/
theorem C3_witness :
    (pairVotes dbv 1 4).length ≤ 1 ∧
    vote_record ⟨4, "user"⟩ 1 ⟨some "urgent"⟩ 1 dbv = .ok dbvCast ∧
    (pairVotes dbvCast 1 4).map Vote.vote_type = ["urgent"] ∧
    ((pairVotes dbv 1 4).length = 1 → dbvCast.votes.length = dbv.votes.length) := by
  have h := C3_one_vote_row_per_pair ⟨4, "user"⟩ 1 ⟨some "urgent"⟩ 1 dbv dbvCast
    (by decide) rfl
  exact ⟨by decide, rfl, h.1, h.2⟩

end Jiseti
